import Mathlib

/-!
Shallow embedding of the TF-Dragonn data-feeding pipeline, covering:
the balanced interval materializer and its side files
(src/tfdragonn/genomeflow_interface.py, GenomeFlowInterface.get_interval_queue),
temp-file bookkeeping and cleanup (cleanup_tmp_files), the bcolz
compressed-array store, its module cache and batch extractor
(src/tfdragonn/tensorflow/bcolz_reader_op.py), the examples queue builder
(src/tfdragonn/tensorflow/examples_queue.py), and the K-fold holdout
filter (src/tfdragonn/gf_keras/tfdragonn_main.py).
All machine integers are modelled as Int/Nat; fallible code returns
Except or pairs a result with an Option error.
-/

/-- An interval record as produced by genomeflow BedFileStream `read_entry`
and consumed by the materializer drain loops: keys chrom, start, end and an
optional labels vector (per-task labels in -1, 0, 1).  This follows the
Interval data model of the spec (section 3), since the stream class itself
is library code not under src/. -/
structure Entry where
  chrom : String
  start : Int
  stop : Int
  labels : Option (List Int)
deriving DecidableEq, Repr

/-- Errors raised inside GenomeFlowInterface.get_interval_queue.
valueError models raise ValueError(Chromosome cannot be in holdout chromosomes). -/
inductive DrainError
  | valueError
deriving DecidableEq, Repr

/-- Line formatting in the drain loops (genomeflow_interface.py lines 159-163
and 189-193): tab-join chrom, start, end, then append tab-joined labels when
the entry has them. -/
def formatLine (e : Entry) : String :=
  let base := e.chrom ++ "\t" ++ toString e.start ++ "\t" ++ toString e.stop
  match e.labels with
  | none => base
  | some ls => base ++ "\t" ++ String.intercalate "\t" (ls.map toString)

/-- The positive-side drain loop (genomeflow_interface.py lines 151-165):
read entries until end of stream; for each entry, raise ValueError when its
chromosome is in holdout_chroms, otherwise write its line.  Returns the
entries written to the side file (in order) together with the error, if the
loop aborted.  Entries written before an abort are kept, mirroring the fact
that the file already holds them when the exception propagates. -/
def drainPosEntries (holdout_chroms : List String) : List Entry → List Entry × Option DrainError
  | [] => ([], none)
  | e :: rest =>
    if e.chrom ∈ holdout_chroms then ([], some DrainError.valueError)
    else
      let (ws, err) := drainPosEntries holdout_chroms rest
      (e :: ws, err)

/-- The negative-side drain loop (genomeflow_interface.py lines 182-194).
Identical to the positive loop except that in the source the write call is
indented one level deeper, inside the labels check, so entries without a
labels field are dropped instead of written. -/
def drainNegEntries (holdout_chroms : List String) : List Entry → List Entry × Option DrainError
  | [] => ([], none)
  | e :: rest =>
    if e.chrom ∈ holdout_chroms then ([], some DrainError.valueError)
    else
      let (ws, err) := drainNegEntries holdout_chroms rest
      (if e.labels.isSome then e :: ws else ws, err)

/-- Materialization of the positive side file (genomeflow_interface.py lines
148-165).  The file is a value of type Option (List String): none when the
file does not exist, some lines otherwise; getsize == 0 corresponds to an
empty line list.  Returns the file content afterwards, whether the
write-and-drain phase ran, and the drain error if one was raised. -/
def materializePosFile (file : Option (List String)) (holdout_chroms : List String)
    (posStream : List Entry) : Option (List String) × Bool × Option DrainError :=
  if file = none ∨ file = some [] then
    let (ws, err) := drainPosEntries holdout_chroms posStream
    (some (ws.map formatLine), true, err)
  else (file, false, none)

/-- Materialization of the negative side file (genomeflow_interface.py lines
179-194), with the same exists-and-nonempty guard. -/
def materializeNegFile (file : Option (List String)) (holdout_chroms : List String)
    (negStream : List Entry) : Option (List String) × Bool × Option DrainError :=
  if file = none ∨ file = some [] then
    let (ws, err) := drainNegEntries holdout_chroms negStream
    (some (ws.map formatLine), true, err)
  else (file, false, none)

/-- The positive sampling predicate (genomeflow_interface.py lines 118-120):
np.array(record[-1], dtype=np.int32)[0] == 1.  A record is modelled per the
Interval data model; its last field (record[-1]) is the labels vector, and
numpy index [0] selects that vectors first element.  none models the
failure cases (no labels field, or an empty vector, where the numpy
expression raises). -/
def pos_sampling_fn (record : Entry) : Option Bool :=
  match record.labels with
  | some (l0 :: _) => some (decide (l0 = 1))
  | _ => none

/-- The negative sampling predicate (genomeflow_interface.py lines 122-123):
np.array(record[-1], dtype=np.int32)[0] == 0. -/
def neg_sampling_fn (record : Entry) : Option Bool :=
  match record.labels with
  | some (l0 :: _) => some (decide (l0 = 0))
  | _ => none

/-- The label of the last task of a record, the quantity the spec says the
sampling predicates examine. -/
def lastTaskLabel (record : Entry) : Option Int :=
  record.labels.bind List.getLast?

/-- os.path.basename for POSIX paths: the part after the last separator. -/
def os_path_basename (p : String) : String :=
  String.mk ((p.data.reverse.takeWhile (fun c => c != '/')).reverse)

/-- Whether one string starts with another, computed on the character
lists. -/
def strStartsWith (s pre : String) : Bool :=
  pre.data.isPrefixOf s.data

/-- Whether one string ends with another, computed on the character
lists. -/
def strEndsWith (s suf : String) : Bool :=
  suf.data.isSuffixOf s.data

/-- os.path.join for POSIX paths, two-argument form. -/
def os_path_join (a b : String) : String :=
  if strStartsWith b "/" then b
  else if a = "" then b
  else if strEndsWith a "/" then a ++ b
  else a ++ "/" ++ b

/-- pos_dest_file (genomeflow_interface.py lines 138-139):
os.path.join(logdir, os.path.basename(intervals_file) + pos suffix). -/
def pos_dest_file (logdir intervals_file : String) : String :=
  os_path_join logdir (os_path_basename intervals_file ++ "pos")

/-- neg_dest_file (genomeflow_interface.py lines 136-137). -/
def neg_dest_file (logdir intervals_file : String) : String :=
  os_path_join logdir (os_path_basename intervals_file ++ "neg")

/-- Effect of the balanced (pos_sampling_rate given) branch of
get_interval_queue on self.tmp_files: none.  The line that would record the
two side files, self.tmp_files += [neg_dest_file, pos_dest_file]
(genomeflow_interface.py line 146), is commented out in the source, so the
branch leaves the list unchanged. -/
def balancedBranchTmpFiles (tmp_files : List String) : List String :=
  tmp_files

/-- Effect of the unbalanced (pos_sampling_rate is None) branch on
self.tmp_files (genomeflow_interface.py line 219): the freshly chosen
dest_file is appended.  The collision-avoiding while loop that picks a
dest_file not already on disk is abstracted: its result is passed in. -/
def unbalancedBranchTmpFiles (tmp_files : List String) (dest_file : String) : List String :=
  tmp_files ++ [dest_file]

/-- cleanup_tmp_files (genomeflow_interface.py lines 312-315), run by
`__del__`: rm -f every recorded path.  The file system is the list of
existing paths; the result is the paths that survive. -/
def cleanup_tmp_files (tmp_files : List String) (fs : List String) : List String :=
  fs.filter (fun p => decide (p ∉ tmp_files))

/-- Collapse every run of two or more path separators to a single one:
re.sub(sep sep+, sep, base_dir) from bcolz_reader_op.py lines 140-142.
(Runs of length one are unchanged by the regex; re-emitting them singly
gives the same string.) -/
def collapseSeps : List Char → List Char
  | [] => []
  | [c] => [c]
  | c1 :: c2 :: rest =>
    if c1 = '/' ∧ c2 = '/' then collapseSeps (c2 :: rest)
    else c1 :: collapseSeps (c2 :: rest)

/-- base_dir_key.rstrip(os.sep) from bcolz_reader_op.py line 143. -/
def rstripSeps (l : List Char) : List Char :=
  (l.reverse.dropWhile (fun c => c == '/')).reverse

/-- The cache key computed by _load_directory (bcolz_reader_op.py lines
140-143): collapse duplicate separators, then strip trailing separators.
Note the source never absolutizes the path. -/
def base_dir_key (base_dir : String) : String :=
  String.mk (rstripSeps (collapseSeps base_dir.data))

/-- The key as the claim words it: the canonicalized ABSOLUTE path
(os.path.abspath against a working directory, then the same separator
normalization).  Stated only to compare with base_dir_key. -/
def spec_abs_key (cwd base_dir : String) : String :=
  base_dir_key (if strStartsWith base_dir "/" then base_dir else cwd ++ "/" ++ base_dir)

/-- The module-level _data_cache of bcolz_reader_op.py together with an
allocation counter.  Loaded directory objects are abstracted to allocation
ids so that object identity (the same id) is expressible; the data actually
loaded is modelled separately by load_array_directory below. -/
structure DataCache where
  nextId : Nat
  entries : List (String × Nat)
deriving DecidableEq, Repr

/-- The caching skeleton of _load_directory (bcolz_reader_op.py lines
137-146 and 171-175): with use_cache, compute the key, return the cached
object on a hit, otherwise load a fresh object and store it under the key;
without use_cache, always load a fresh object and never touch the cache. -/
def load_directory_cached (cache : DataCache) (base_dir : String) (use_cache : Bool) :
    Nat × DataCache :=
  if use_cache then
    let key := base_dir_key base_dir
    match cache.entries.lookup key with
    | some obj => (obj, cache)
    | none => (cache.nextId, ⟨cache.nextId + 1, (key, cache.nextId) :: cache.entries⟩)
  else (cache.nextId, ⟨cache.nextId + 1, cache.entries⟩)

/-- A gf.io.StreamingIntervalQueue as constructed in get_interval_queue:
the constructor arguments that the source passes
(genomeflow_interface.py lines 168-176 and 195-203). -/
structure StreamingIntervalQueue where
  source_file : String
  read_batch_size : Nat
  name : String
  num_epochs : Option Nat
  capacity : Nat
  shuffle : Bool
  min_after_dequeue : Nat
deriving DecidableEq, Repr

/-- The positive interval queue (genomeflow_interface.py lines 168-176). -/
def pos_interval_queue (dataset_id posFile : String) (num_epochs : Option Nat)
    (read_batch_size : Nat) (shuffle : Bool) : StreamingIntervalQueue :=
  { source_file := posFile
    read_batch_size := read_batch_size
    name := dataset_id ++ "-pos-interval-queue"
    num_epochs := num_epochs
    capacity := 50000
    shuffle := shuffle
    min_after_dequeue := 40000 }

/-- The negative interval queue (genomeflow_interface.py lines 195-203). -/
def neg_interval_queue (dataset_id negFile : String) (num_epochs : Option Nat)
    (read_batch_size : Nat) (shuffle : Bool) : StreamingIntervalQueue :=
  { source_file := negFile
    read_batch_size := read_batch_size
    name := dataset_id ++ "-neg-interval-queue"
    num_epochs := num_epochs
    capacity := 50000
    shuffle := shuffle
    min_after_dequeue := 40000 }

/-- A gf.io.SharedIntervalQueue: the dict of sub-queues with their rates,
plus the constructor arguments the source passes
(genomeflow_interface.py lines 205-213). -/
structure SharedIntervalQueue where
  queues : List (StreamingIntervalQueue × ℚ)
  capacity : Nat
  name : String

/-- The composed queue of the balanced branch (genomeflow_interface.py lines
205-213): interval_queues = two entries, the positive queue weighted
pos_sampling_rate and the negative queue weighted 1 - pos_sampling_rate. -/
def shared_interval_queue (dataset_id posFile negFile : String) (num_epochs : Option Nat)
    (read_batch_size : Nat) (shuffle : Bool) (pos_sampling_rate : ℚ) : SharedIntervalQueue :=
  { queues :=
      [(pos_interval_queue dataset_id posFile num_epochs read_batch_size shuffle,
        pos_sampling_rate),
       (neg_interval_queue dataset_id negFile num_epochs read_batch_size shuffle,
        1 - pos_sampling_rate)]
    capacity := 50000
    name := dataset_id ++ "-shared-interval-queue" }

/-- Total weight of a shared queue. -/
def totalWeight (queues : List (StreamingIntervalQueue × ℚ)) : ℚ :=
  match queues with
  | [] => 0
  | (_, w) :: rest => w + totalWeight rest

/-- Weight assigned to one sub-queue of a shared queue. -/
def weightOf (queues : List (StreamingIntervalQueue × ℚ)) (sub : StreamingIntervalQueue) : ℚ :=
  match queues with
  | [] => 0
  | (q, w) :: rest => (if q = sub then w else 0) + weightOf rest sub

/-- Modelled from the spec: genomeflow SharedIntervalQueue dequeue semantics
(the queue class is library code not under src/).  Each dequeue draws from
sub-queue q with probability weight(q) / total weight, independently across
draws; this definition gives that per-draw probability. -/
def drawProbability (q : SharedIntervalQueue) (sub : StreamingIntervalQueue) : ℚ :=
  weightOf q.queues sub / totalWeight q.queues

/-- The per-fold training-queue selection of train_tf_dragonn
(gf_keras/tfdragonn_main.py lines 222-224): keep exactly the example queues
whose dataset id differs from the fold's held-out validation dataset id.
Example-queue objects are abstracted to ids (Nat). -/
def train_example_queues_fold (train_example_queues : List (String × Nat))
    (valid_dataset_id : String) : List (String × Nat) :=
  train_example_queues.filter (fun p => decide (p.1 ≠ valid_dataset_id))

/-- A gf.io.MultiDatasetExampleQueue as constructed by
get_shared_examples_queue (genomeflow_interface.py lines 290-296). -/
structure MultiDatasetExampleQueue where
  queues : List (String × Nat)
  capacity : Nat
  name : String
  asynchronous_enqueues : Bool
deriving DecidableEq, Repr

/-- get_shared_examples_queue (genomeflow_interface.py lines 290-296). -/
def get_shared_examples_queue (examples_queues : List (String × Nat))
    (asynchronous_enqueues : Bool) : MultiDatasetExampleQueue :=
  { queues := examples_queues
    capacity := 2048
    name := "multi-dataset-example-queue"
    asynchronous_enqueues := asynchronous_enqueues }

/-- The fold training stream (gf_keras/tfdragonn_main.py lines 222-226):
the shared queue over the filtered example queues. -/
def fold_train_queue (train_example_queues : List (String × Nat))
    (valid_dataset_id : String) : MultiDatasetExampleQueue :=
  get_shared_examples_queue (train_example_queues_fold train_example_queues valid_dataset_id)
    true

/-- Errors of the bcolz batch extractor (bcolz_reader_op.py extractor_func).
ioError is raise IOError; keyError is a missing chromosome in the data
mapping; indexError is lens[0] on an empty batch; broadcastError is the
numpy ValueError raised when a slice cannot be broadcast into an output
row. -/
inductive ExtractError
  | ioError (msg : String)
  | keyError
  | indexError
  | broadcastError
deriving DecidableEq, Repr

/-- Python list slicing xs[s:e] for 0 <= s <= e (bcolz arrays are modelled
as their value lists; accessor_func, bcolz_reader_op.py lines 78-79). -/
def pySlice (xs : List Int) (s e : Int) : List Int :=
  (xs.drop s.toNat).take (e - s).toNat

/-- numpy assignment output[i, ...] = row where the output row has length
target: succeeds when the lengths agree, broadcasts a length-one row across
the whole output row, and raises ValueError otherwise. -/
def npBroadcastInto (target : Nat) (row : List Int) : Except ExtractError (List Int) :=
  if row.length = target then Except.ok row
  else if row.length = 1 then Except.ok (List.replicate target (row.headD 0))
  else Except.error ExtractError.broadcastError

/-- The row-filling loop of extractor_func (bcolz_reader_op.py lines
114-116): for each interval, slice data[chrom][start:end] and assign it
into the preallocated output row of length target_len. -/
def extract_rows (data : List (String × List Int)) (target_len : Nat) :
    List (String × Int × Int) → Except ExtractError (List (List Int))
  | [] => Except.ok []
  | (chrom, s, e) :: rest =>
    match data.lookup chrom with
    | none => Except.error ExtractError.keyError
    | some arr =>
      match npBroadcastInto target_len (pySlice arr s e) with
      | Except.error err => Except.error err
      | Except.ok row =>
        match extract_rows data target_len rest with
        | Except.error err => Except.error err
        | Except.ok rows => Except.ok (row :: rows)

/-- extractor_func (bcolz_reader_op.py lines 84-118) on a batch of
(chrom, start, end) intervals over per-chromosome 1-D data arrays.
lens = ends - starts and target_len = lens[0]; the consistency check in the
source is `if not np.all(target_len == lens[0])`, which compares lens[0]
with itself (not with the whole lens vector), so its raise branch is kept
here exactly as written. -/
def extractor_func (data : List (String × List Int)) (bed3 : List (String × Int × Int)) :
    Except ExtractError (List (List Int)) :=
  let starts := bed3.map (fun b => b.2.1)
  let ends := bed3.map (fun b => b.2.2)
  let lens := List.zipWith (fun e s => e - s) ends starts
  match lens with
  | [] => Except.error ExtractError.indexError
  | target_len :: _ =>
    if target_len ≠ target_len then
      Except.error (ExtractError.ioError "Inconsistent bed entry lengths")
    else extract_rows data target_len.toNat bed3

/-- Array shapes as declared in metadata.json file_shapes and as found on
disk. -/
abbrev Shape := List Nat

/-- Errors of _load_directory (bcolz_reader_op.py _load_directory).
ioError models the IOError cases (missing directory or chromosome);
valueError models raise ValueError(Inconsistent shape found in metadata
file: ...) and carries the offending chromosome. -/
inductive LoadError
  | ioError (chrom : String)
  | valueError (chrom : String)
deriving DecidableEq, Repr

/-- The dict comprehension data = chrom to bcolz.open(...) over the
chromosomes of metadata file_shapes (bcolz_reader_op.py lines 152-153).
The on-disk state is a map from chromosome to the shape of its stored
array (none when the subdirectory is missing, in which case the open
raises).  Opened arrays are represented by their shapes, the only attribute
the validation reads. -/
def open_bcolz_arrays (file_shapes : List (String × Shape)) (disk : String → Option Shape) :
    Except LoadError (List (String × Shape)) :=
  match file_shapes with
  | [] => Except.ok []
  | (chrom, _) :: rest =>
    match disk chrom with
    | none => Except.error (LoadError.ioError chrom)
    | some s =>
      match open_bcolz_arrays rest disk with
      | Except.error e => Except.error e
      | Except.ok data => Except.ok ((chrom, s) :: data)

/-- The validation loop of _load_directory (bcolz_reader_op.py lines
155-159): for every chrom and declared shape in file_shapes, raise
ValueError when the opened array's shape differs. -/
def validate_file_shapes (file_shapes data : List (String × Shape)) :
    Except LoadError Unit :=
  match file_shapes with
  | [] => Except.ok ()
  | (chrom, shape) :: rest =>
    if data.lookup chrom ≠ some shape then Except.error (LoadError.valueError chrom)
    else validate_file_shapes rest data

/-- The array_bcolz branch of _load_directory (bcolz_reader_op.py lines
151-159): open every declared chromosome, then validate every declared
shape, and only then return the data mapping slice reads are served from. -/
def load_array_directory (file_shapes : List (String × Shape)) (disk : String → Option Shape) :
    Except LoadError (List (String × Shape)) :=
  match open_bcolz_arrays file_shapes disk with
  | Except.error e => Except.error e
  | Except.ok data =>
    match validate_file_shapes file_shapes data with
    | Except.error e => Except.error e
    | Except.ok _ => Except.ok data

/-- Python-level errors raised inside examples_queue
(tensorflow/examples_queue.py). -/
inductive QueueError
  | typeError
  | assertionError
deriving DecidableEq, Repr

/-- The variable tensors_to_enqueue of examples_queue.  Line 29 of the
source binds it to the OrderedDict CLASS itself (the parentheses of the
constructor call are missing), so it is either that class object or a real
ordered-dict instance.  Stored tensors are abstracted to ids (Nat). -/
inductive TensorsToEnqueue
  | orderedDictClass
  | inst (entries : List (String × Nat))
deriving DecidableEq, Repr

/-- Python membership test k in t.  On the OrderedDict class object this
raises TypeError (argument of type type is not iterable). -/
def py_contains (t : TensorsToEnqueue) (k : String) : Except QueueError Bool :=
  match t with
  | TensorsToEnqueue.orderedDictClass => Except.error QueueError.typeError
  | TensorsToEnqueue.inst es => Except.ok (es.any (fun p => p.1 == k))

/-- Python item assignment t[k] = v.  On the OrderedDict class object this
raises TypeError (type object does not support item assignment); on an
instance with a fresh key it appends. -/
def py_setitem (t : TensorsToEnqueue) (k : String) (v : Nat) :
    Except QueueError TensorsToEnqueue :=
  match t with
  | TensorsToEnqueue.orderedDictClass => Except.error QueueError.typeError
  | TensorsToEnqueue.inst es => Except.ok (TensorsToEnqueue.inst (es ++ [(k, v)]))

/-- t.values() - on the class object the unbound OrderedDict.values call
raises TypeError (examples_queue.py line 43). -/
def py_values (t : TensorsToEnqueue) : Except QueueError (List Nat) :=
  match t with
  | TensorsToEnqueue.orderedDictClass => Except.error QueueError.typeError
  | TensorsToEnqueue.inst es => Except.ok (es.map Prod.snd)

/-- t.keys() - likewise (examples_queue.py line 45). -/
def py_keys (t : TensorsToEnqueue) : Except QueueError (List String) :=
  match t with
  | TensorsToEnqueue.orderedDictClass => Except.error QueueError.typeError
  | TensorsToEnqueue.inst es => Except.ok (es.map Prod.fst)

/-- One of the three accumulation loops of examples_queue (lines 31-41):
for each item, assert its key is not already present, then store it under
the group-specific queue key. -/
def enqueue_group (mkKey : String → String) (items : List (String × Nat))
    (t : TensorsToEnqueue) : Except QueueError TensorsToEnqueue :=
  match items with
  | [] => Except.ok t
  | (k, v) :: rest =>
    match py_contains t k with
    | Except.error e => Except.error e
    | Except.ok true => Except.error QueueError.assertionError
    | Except.ok false =>
      match py_setitem t (mkKey k) v with
      | Except.error e => Except.error e
      | Except.ok t2 => enqueue_group mkKey rest t2

/-- The tf.FIFOQueue constructed at the end of examples_queue (lines
47-49), recording the arguments the source passes (shape/dtype tensor
metadata is dropped along with the tensors themselves). -/
structure FIFOQueue where
  capacity : Nat
  names : List String
deriving DecidableEq, Repr

/-- examples_queue (tensorflow/examples_queue.py lines 16-56).  Note that
the labels loop key is the format call on the constant string labels/ with
no placeholder, so every labels key collapses to that constant. -/
def examples_queue (intervals data labels : List (String × Nat)) :
    Except QueueError FIFOQueue :=
  let t0 := TensorsToEnqueue.orderedDictClass
  match enqueue_group (fun k => "intervals/" ++ k) intervals t0 with
  | Except.error e => Except.error e
  | Except.ok t1 =>
    match enqueue_group (fun k => "data/" ++ k) data t1 with
    | Except.error e => Except.error e
    | Except.ok t2 =>
      match enqueue_group (fun _ => "labels/") labels t2 with
      | Except.error e => Except.error e
      | Except.ok t3 =>
        match py_values t3 with
        | Except.error e => Except.error e
        | Except.ok _ =>
          match py_keys t3 with
          | Except.error e => Except.error e
          | Except.ok names => Except.ok { capacity := 10000, names := names }

theorem drainPos_err_of_mem (holdout_chroms : List String) (entries : List Entry)
    (e : Entry) (he : e ∈ entries) (hc : e.chrom ∈ holdout_chroms) :
    (drainPosEntries holdout_chroms entries).2 = some DrainError.valueError := by
  induction entries with
  | nil => cases he
  | cons a rest ih =>
    by_cases ha : a.chrom ∈ holdout_chroms
    · simp [drainPosEntries, ha]
    · rcases heq : drainPosEntries holdout_chroms rest with ⟨ws, err⟩
      rcases List.mem_cons.mp he with rfl | hrest
      · exact absurd hc ha
      · have := ih hrest
        rw [heq] at this
        simp [drainPosEntries, ha, heq, this]

theorem drainNeg_err_of_mem (holdout_chroms : List String) (entries : List Entry)
    (e : Entry) (he : e ∈ entries) (hc : e.chrom ∈ holdout_chroms) :
    (drainNegEntries holdout_chroms entries).2 = some DrainError.valueError := by
  induction entries with
  | nil => cases he
  | cons a rest ih =>
    by_cases ha : a.chrom ∈ holdout_chroms
    · simp [drainNegEntries, ha]
    · rcases heq : drainNegEntries holdout_chroms rest with ⟨ws, err⟩
      rcases List.mem_cons.mp he with rfl | hrest
      · exact absurd hc ha
      · have := ih hrest
        rw [heq] at this
        simp [drainNegEntries, ha, heq, this]

theorem drainPos_written_not_holdout (holdout_chroms : List String) (entries : List Entry) :
    ∀ e ∈ (drainPosEntries holdout_chroms entries).1, e.chrom ∉ holdout_chroms := by
  induction entries with
  | nil => simp [drainPosEntries]
  | cons a rest ih =>
    by_cases ha : a.chrom ∈ holdout_chroms
    · simp [drainPosEntries, ha]
    · rcases heq : drainPosEntries holdout_chroms rest with ⟨ws, err⟩
      rw [heq] at ih
      intro e hme
      simp only [drainPosEntries, if_neg ha, heq] at hme
      rcases List.mem_cons.mp hme with rfl | hrest
      · exact ha
      · exact ih e hrest

theorem drainNeg_written_not_holdout (holdout_chroms : List String) (entries : List Entry) :
    ∀ e ∈ (drainNegEntries holdout_chroms entries).1, e.chrom ∉ holdout_chroms := by
  induction entries with
  | nil => simp [drainNegEntries]
  | cons a rest ih =>
    by_cases ha : a.chrom ∈ holdout_chroms
    · simp [drainNegEntries, ha]
    · rcases heq : drainNegEntries holdout_chroms rest with ⟨ws, err⟩
      rw [heq] at ih
      intro e hme
      simp only [drainNegEntries, if_neg ha, heq] at hme
      by_cases hl : a.labels.isSome
      · rw [if_pos hl] at hme
        rcases List.mem_cons.mp hme with rfl | hrest
        · exact ha
        · exact ih e hrest
      · rw [if_neg hl] at hme
        exact ih e hme

/-- C1: an interval drained from the positive-only or negative-only stream
whose chromosome is in holdout_chroms makes materialization raise
ValueError, and consequently every record written to a pos/neg side file
has a chromosome outside holdout_chroms. -/
theorem materializer_holdout_invariant (holdout_chroms : List String) (entries : List Entry) :
    (∀ e ∈ entries, e.chrom ∈ holdout_chroms →
        (drainPosEntries holdout_chroms entries).2 = some DrainError.valueError ∧
        (drainNegEntries holdout_chroms entries).2 = some DrainError.valueError) ∧
    (∀ e ∈ (drainPosEntries holdout_chroms entries).1, e.chrom ∉ holdout_chroms) ∧
    (∀ e ∈ (drainNegEntries holdout_chroms entries).1, e.chrom ∉ holdout_chroms) :=
  ⟨fun e he hc => ⟨drainPos_err_of_mem holdout_chroms entries e he hc,
      drainNeg_err_of_mem holdout_chroms entries e he hc⟩,
   drainPos_written_not_holdout holdout_chroms entries,
   drainNeg_written_not_holdout holdout_chroms entries⟩

/-- Witness for C1 at holdout_chroms = [chr1] and a single chr1 entry. -/
theorem materializer_holdout_invariant_witness :
    (drainPosEntries ["chr1"] [⟨"chr1", 0, 1000, some [1]⟩]).2 = some DrainError.valueError ∧
    (drainNegEntries ["chr1"] [⟨"chr1", 0, 1000, some [1]⟩]).2 = some DrainError.valueError :=
  (materializer_holdout_invariant ["chr1"] [⟨"chr1", 0, 1000, some [1]⟩]).1
    ⟨"chr1", 0, 1000, some [1]⟩ (List.mem_singleton.mpr rfl) (by decide)

/-- C3: when a side file already exists and is non-empty, the materializer
leaves it byte-for-byte unchanged and the write-and-drain phase does not
run. -/
theorem side_file_cache_reuse (c holdout_chroms : List String)
    (posStream negStream : List Entry) (h : c ≠ []) :
    materializePosFile (some c) holdout_chroms posStream = (some c, false, none) ∧
    materializeNegFile (some c) holdout_chroms negStream = (some c, false, none) := by
  constructor
  · simp [materializePosFile, h]
  · simp [materializeNegFile, h]

/-- Witness for C3 on a one-line side file. -/
theorem side_file_cache_reuse_witness :
    materializePosFile (some ["chr2\t0\t1000\t1"]) ["chrX"] []
        = (some ["chr2\t0\t1000\t1"], false, none) ∧
    materializeNegFile (some ["chr2\t0\t1000\t1"]) ["chrX"] []
        = (some ["chr2\t0\t1000\t1"], false, none) :=
  side_file_cache_reuse ["chr2\t0\t1000\t1"] ["chrX"] [] [] (by decide)

/-- A two-task record whose first-task label is 0 and last-task label is 1. -/
def multiTaskRecord : Entry :=
  { chrom := "chr1", start := 0, stop := 1000, labels := some [0, 1] }

/-- C6 counterexample: on a record with labels [0, 1] the last task label
is 1, yet the positive sampling predicate returns false - the predicate is
not a function of the last task label. -/
theorem sampling_fn_last_task_counterexample :
    ¬ ((pos_sampling_fn multiTaskRecord = some true)
        ↔ lastTaskLabel multiTaskRecord = some 1) := by
  decide

/-- C6 amended: both sampling predicates examine element 0 of the record's
labels vector (its last field), i.e. the FIRST task's label: the positive
predicate is true exactly when that label is 1 and the negative one exactly
when it is 0.  For single-task records this is the only task's label. -/
theorem sampling_fns_examine_first_label (r : Entry) (l0 : Int) (rest : List Int)
    (h : r.labels = some (l0 :: rest)) :
    ((pos_sampling_fn r = some true) ↔ l0 = 1) ∧
    ((neg_sampling_fn r = some true) ↔ l0 = 0) := by
  constructor
  · simp [pos_sampling_fn, h]
  · simp [neg_sampling_fn, h]

/-- Witness for the amended C6 at labels [1, 0]. -/
theorem sampling_fns_examine_first_label_witness :
    ((pos_sampling_fn ⟨"chr2", 0, 100, some [1, 0]⟩ = some true) ↔ (1 : Int) = 1) ∧
    ((neg_sampling_fn ⟨"chr2", 0, 100, some [1, 0]⟩ = some true) ↔ (1 : Int) = 0) :=
  sampling_fns_examine_first_label ⟨"chr2", 0, 100, some [1, 0]⟩ 1 [0] rfl

/-- C7 counterexample: run the balanced branch (both side files on disk,
nothing recorded in tmp_files because the recording line is commented out),
then discard the interface; cleanup deletes nothing and the positive side
file still exists, contrary to the claim that every created side file is
deleted. -/
theorem side_files_not_cleaned_counterexample :
    cleanup_tmp_files (balancedBranchTmpFiles [])
        [pos_dest_file "/log" "ints.tsv", neg_dest_file "/log" "ints.tsv"]
      = [pos_dest_file "/log" "ints.tsv", neg_dest_file "/log" "ints.tsv"] ∧
    pos_dest_file "/log" "ints.tsv"
        ∈ cleanup_tmp_files (balancedBranchTmpFiles [])
            [pos_dest_file "/log" "ints.tsv", neg_dest_file "/log" "ints.tsv"] := by
  constructor
  · rfl
  · exact List.mem_cons_self _ _

/-- C7 amended: only the dest files created by the unbalanced branch
(pos_sampling_rate omitted) are recorded in tmp_files and removed by
cleanup_tmp_files on destruction; the materialized pos/neg side files are
not recorded and survive cleanup. -/
theorem tmp_file_cleanup_amended (tmp_files fs : List String) (pos neg dest : String)
    (hp : pos ∉ tmp_files) (hn : neg ∉ tmp_files) :
    balancedBranchTmpFiles tmp_files = tmp_files ∧
    (pos ∈ fs → pos ∈ cleanup_tmp_files (balancedBranchTmpFiles tmp_files) fs) ∧
    (neg ∈ fs → neg ∈ cleanup_tmp_files (balancedBranchTmpFiles tmp_files) fs) ∧
    dest ∉ cleanup_tmp_files (unbalancedBranchTmpFiles tmp_files dest) fs := by
  refine ⟨rfl, ?_, ?_, ?_⟩
  · intro hmem
    simp [cleanup_tmp_files, balancedBranchTmpFiles, List.mem_filter, hmem, hp]
  · intro hmem
    simp [cleanup_tmp_files, balancedBranchTmpFiles, List.mem_filter, hmem, hn]
  · intro hmem
    rcases List.mem_filter.mp hmem with ⟨_, hdec⟩
    simp [unbalancedBranchTmpFiles] at hdec

/-- Witness for the amended C7. -/
theorem tmp_file_cleanup_amended_witness :
    balancedBranchTmpFiles [] = [] ∧
    ("p" ∈ (["p", "n", "d"] : List String) →
        "p" ∈ cleanup_tmp_files (balancedBranchTmpFiles []) ["p", "n", "d"]) ∧
    ("n" ∈ (["p", "n", "d"] : List String) →
        "n" ∈ cleanup_tmp_files (balancedBranchTmpFiles []) ["p", "n", "d"]) ∧
    "d" ∉ cleanup_tmp_files (unbalancedBranchTmpFiles [] "d") ["p", "n", "d"] :=
  tmp_file_cleanup_amended [] ["p", "n", "d"] "p" "n" "d" (by decide) (by decide)

/-- C4 counterexample: the cache key of the spelling a//b/ is the relative
path a/b, not a canonicalized absolute path - _load_directory never calls
os.path.abspath. -/
theorem cache_key_not_absolute_counterexample :
    base_dir_key "a//b/" = "a/b" ∧
    spec_abs_key "/w" "a//b/" = "/w/a/b" ∧
    base_dir_key "a//b/" ≠ spec_abs_key "/w" "a//b/" := by
  have h1 : base_dir_key "a//b/" = "a/b" := rfl
  have h2 : spec_abs_key "/w" "a//b/" = "/w/a/b" := rfl
  refine ⟨h1, h2, ?_⟩
  rw [h1, h2]
  decide

/-- C4 amended: with use_cache, the cache key is the path as given with
duplicate separator runs collapsed and trailing separators stripped (no
absolutization); two loads whose spellings canonicalize to the same key
return the identical cached object, while use_cache=false always returns a
fresh, independent object. -/
theorem load_directory_cache_amended (cache : DataCache) (p q : String)
    (hpq : base_dir_key p = base_dir_key q) :
    (load_directory_cached ((load_directory_cached cache p true).2) q true).1
        = (load_directory_cached cache p true).1 ∧
    (load_directory_cached ((load_directory_cached cache p false).2) q false).1
        ≠ (load_directory_cached cache p false).1 := by
  constructor
  · rcases hl : cache.entries.lookup (base_dir_key p) with _ | obj
    · simp [load_directory_cached, hl, ← hpq, List.lookup]
    · simp [load_directory_cached, hl, ← hpq]
  · simp [load_directory_cached]

/-- Witness for the amended C4: the spellings a//b/ and a/b share one cache
entry starting from the empty cache. -/
theorem load_directory_cache_amended_witness :
    (load_directory_cached ((load_directory_cached ⟨0, []⟩ "a//b/" true).2) "a/b" true).1
        = (load_directory_cached ⟨0, []⟩ "a//b/" true).1 ∧
    (load_directory_cached ((load_directory_cached ⟨0, []⟩ "a//b/" false).2) "a/b" false).1
        ≠ (load_directory_cached ⟨0, []⟩ "a//b/" false).1 :=
  load_directory_cache_amended ⟨0, []⟩ "a//b/" "a/b" rfl

theorem string_data_append (s t : String) : (s ++ t).data = s.data ++ t.data := by
  cases s
  cases t
  rfl

theorem string_append_left_cancel {d a b : String} (h : d ++ a = d ++ b) : a = b := by
  have hd : d.data ++ a.data = d.data ++ b.data := by
    rw [← string_data_append, ← string_data_append, h]
  have hab : a.data = b.data := List.append_cancel_left hd
  cases a
  cases b
  exact congrArg String.mk (by simpa using hab)

theorem pos_ne_neg_interval_queue (dataset_id posFile negFile : String)
    (num_epochs : Option Nat) (read_batch_size : Nat) (shuffle : Bool) :
    pos_interval_queue dataset_id posFile num_epochs read_batch_size shuffle
      ≠ neg_interval_queue dataset_id negFile num_epochs read_batch_size shuffle := by
  intro h
  have hn : dataset_id ++ "-pos-interval-queue" = dataset_id ++ "-neg-interval-queue" :=
    congrArg StreamingIntervalQueue.name h
  have hc := string_append_left_cancel hn
  exact absurd hc (by decide)

/-- C5: the composed balanced stream is a weighted multiplex of exactly the
positive-side queue at weight pos_sampling_rate and the negative-side queue
at weight 1 - pos_sampling_rate, so a dequeue draws from the positive queue
with probability pos_sampling_rate and from the negative queue with
probability 1 - pos_sampling_rate. -/
theorem balanced_multiplex_weights (dataset_id posFile negFile : String)
    (num_epochs : Option Nat) (read_batch_size : Nat) (shuffle : Bool) (r : ℚ)
    (h0 : 0 < r) (h1 : r < 1) :
    (shared_interval_queue dataset_id posFile negFile num_epochs read_batch_size
        shuffle r).queues
      = [(pos_interval_queue dataset_id posFile num_epochs read_batch_size shuffle, r),
         (neg_interval_queue dataset_id negFile num_epochs read_batch_size shuffle, 1 - r)] ∧
    drawProbability
        (shared_interval_queue dataset_id posFile negFile num_epochs read_batch_size shuffle r)
        (pos_interval_queue dataset_id posFile num_epochs read_batch_size shuffle) = r ∧
    drawProbability
        (shared_interval_queue dataset_id posFile negFile num_epochs read_batch_size shuffle r)
        (neg_interval_queue dataset_id negFile num_epochs read_batch_size shuffle) = 1 - r := by
  have hne := pos_ne_neg_interval_queue dataset_id posFile negFile num_epochs
    read_batch_size shuffle
  refine ⟨rfl, ?_, ?_⟩
  · simp only [drawProbability, shared_interval_queue, weightOf, totalWeight]
    rw [if_pos trivial]
    rw [if_neg (fun hx => hne hx.symm)]
    have hden : r + (1 - r + 0) = 1 := by ring
    rw [hden]
    ring
  · simp only [drawProbability, shared_interval_queue, weightOf, totalWeight]
    rw [if_pos trivial]
    rw [if_neg hne]
    have hden : r + (1 - r + 0) = 1 := by ring
    rw [hden]
    ring

/-- Witness for C5 at pos_sampling_rate = 1/2. -/
theorem balanced_multiplex_weights_witness :
    (shared_interval_queue "d" "f.pos" "f.neg" none 10000 true (1 / 2)).queues
      = [(pos_interval_queue "d" "f.pos" none 10000 true, 1 / 2),
         (neg_interval_queue "d" "f.neg" none 10000 true, 1 - 1 / 2)] ∧
    drawProbability (shared_interval_queue "d" "f.pos" "f.neg" none 10000 true (1 / 2))
        (pos_interval_queue "d" "f.pos" none 10000 true) = 1 / 2 ∧
    drawProbability (shared_interval_queue "d" "f.pos" "f.neg" none 10000 true (1 / 2))
        (neg_interval_queue "d" "f.neg" none 10000 true) = 1 - 1 / 2 :=
  balanced_multiplex_weights "d" "f.pos" "f.neg" none 10000 true (1 / 2)
    (by norm_num) (by norm_num)

/-- C9: a dataset id appears in the fold's merged training queue exactly
when it is among the training example queues and differs from the fold's
held-out validation dataset id; in particular the held-out dataset never
appears in that fold's training stream. -/
theorem kfold_holdout_excluded (train_example_queues : List (String × Nat))
    (valid_dataset_id d : String) :
    d ∈ (fold_train_queue train_example_queues valid_dataset_id).queues.map Prod.fst
      ↔ (d ∈ train_example_queues.map Prod.fst ∧ d ≠ valid_dataset_id) := by
  simp only [fold_train_queue, get_shared_examples_queue, train_example_queues_fold,
    List.mem_map, List.mem_filter, decide_eq_true_eq]
  constructor
  · rintro ⟨p, ⟨hp, hne⟩, rfl⟩
    exact ⟨⟨p, hp, rfl⟩, hne⟩
  · rintro ⟨⟨p, hp, rfl⟩, hne⟩
    exact ⟨p, ⟨hp, hne⟩, rfl⟩

/-- C2 (code bug): the length-consistency check of extractor_func compares
lens[0] with itself and so never fires.  On a batch whose interval lengths
are 2 and 1 the extractor returns a tensor (the length-1 slice is silently
broadcast across the output row) instead of raising; on lengths 2 and 3 the
error that does surface is the numpy broadcast ValueError from the row
assignment, not the read-time inconsistent-lengths IOError. -/
theorem extractor_inconsistent_lengths_accepted :
    extractor_func [("chr1", [5, 6, 7, 8])] [("chr1", 0, 2), ("chr1", 2, 3)]
        = Except.ok [[5, 6], [7, 7]] ∧
    extractor_func [("chr1", [5, 6, 7, 8])] [("chr1", 0, 2), ("chr1", 0, 3)]
        = Except.error ExtractError.broadcastError := by
  constructor
  · rfl
  · rfl

theorem open_bcolz_arrays_ok (file_shapes : List (String × Shape))
    (disk : String → Option Shape)
    (hopen : ∀ cs ∈ file_shapes, (disk cs.1).isSome) :
    open_bcolz_arrays file_shapes disk
      = Except.ok (file_shapes.map (fun cs => (cs.1, (disk cs.1).getD []))) := by
  induction file_shapes with
  | nil => rfl
  | cons a rest ih =>
    obtain ⟨c, s⟩ := a
    have ha := hopen (c, s) (List.mem_cons_self _ _)
    rcases hd : disk c with _ | sd
    · rw [hd] at ha
      simp at ha
    · have hrest := ih (fun cs hcs => hopen cs (List.mem_cons_of_mem _ hcs))
      simp [open_bcolz_arrays, hd, hrest]

theorem data_lookup_of_mem (file_shapes : List (String × Shape))
    (disk : String → Option Shape) (chrom : String) (shape : Shape)
    (hmem : (chrom, shape) ∈ file_shapes) :
    (file_shapes.map (fun cs => (cs.1, (disk cs.1).getD []))).lookup chrom
      = some ((disk chrom).getD []) := by
  induction file_shapes with
  | nil => cases hmem
  | cons a rest ih =>
    obtain ⟨c, s⟩ := a
    by_cases hc : c = chrom
    · subst hc
      simp [List.lookup]
    · rcases List.mem_cons.mp hmem with heq | hrest
      · cases heq
        exact absurd rfl hc
      · have hbeq : (chrom == c) = false := beq_eq_false_iff_ne.mpr (Ne.symm hc)
        simpa [List.lookup, hbeq] using ih hrest

theorem validate_file_shapes_err (file_shapes : List (String × Shape))
    (data : List (String × Shape)) (chrom : String) (shape : Shape)
    (hmem : (chrom, shape) ∈ file_shapes)
    (hmism : data.lookup chrom ≠ some shape) :
    ∃ c, validate_file_shapes file_shapes data = Except.error (LoadError.valueError c) := by
  induction file_shapes with
  | nil => cases hmem
  | cons a rest ih =>
    obtain ⟨c, s⟩ := a
    by_cases hv : data.lookup c ≠ some s
    · exact ⟨c, by simp [validate_file_shapes, hv]⟩
    · push_neg at hv
      rcases List.mem_cons.mp hmem with heq | hrest
      · rw [Prod.mk.injEq] at heq
        obtain ⟨rfl, rfl⟩ := heq
        exact absurd hv hmism
      · obtain ⟨cw, hcw⟩ := ih hrest
        refine ⟨cw, ?_⟩
        simpa [validate_file_shapes, hv] using hcw

/-- C8: if every declared chromosome opens but some chromosome's on-disk
array shape differs from the shape the manifest declares for it, loading
the array directory stops with the shape-mismatch ValueError; no data
mapping is returned, so no slice read can be attempted. -/
theorem shape_mismatch_fatal (file_shapes : List (String × Shape))
    (disk : String → Option Shape) (chrom : String) (shape actual : Shape)
    (hopen : ∀ cs ∈ file_shapes, (disk cs.1).isSome)
    (hmem : (chrom, shape) ∈ file_shapes)
    (hactual : disk chrom = some actual)
    (hne : actual ≠ shape) :
    ∃ c, load_array_directory file_shapes disk = Except.error (LoadError.valueError c) := by
  have h1 := open_bcolz_arrays_ok file_shapes disk hopen
  have h2 := data_lookup_of_mem file_shapes disk chrom shape hmem
  rw [hactual] at h2
  simp only [Option.getD_some] at h2
  have hmism : (file_shapes.map (fun cs => (cs.1, (disk cs.1).getD []))).lookup chrom
      ≠ some shape := by
    rw [h2]
    exact fun hx => hne (Option.some.inj hx)
  obtain ⟨c, hc⟩ := validate_file_shapes_err file_shapes _ chrom shape hmem hmism
  refine ⟨c, ?_⟩
  simp [load_array_directory, h1, hc]

/-- Witness for C8: manifest declares chr1 shape [1000, 4], disk holds
[999, 4]. -/
theorem shape_mismatch_fatal_witness :
    ∃ c, load_array_directory [("chr1", [1000, 4])]
        (fun c => if c = "chr1" then some [999, 4] else none)
      = Except.error (LoadError.valueError c) :=
  shape_mismatch_fatal [("chr1", [1000, 4])]
    (fun c => if c = "chr1" then some [999, 4] else none) "chr1" [1000, 4] [999, 4]
    (by
      intro cs hcs
      rcases List.mem_singleton.mp hcs with rfl
      simp)
    (List.mem_singleton.mpr rfl)
    (by simp)
    (by decide)

/-- C10: because tensors_to_enqueue is bound to the OrderedDict class
itself, any call with at least one interval, data or label entry raises
TypeError at the first accumulation step, before the FIFOQueue is
constructed; the function can never return a queue for non-empty inputs. -/
theorem examples_queue_raises_typeerror (intervals data labels : List (String × Nat))
    (h : intervals ≠ [] ∨ data ≠ [] ∨ labels ≠ []) :
    examples_queue intervals data labels = Except.error QueueError.typeError := by
  rcases intervals with _ | ⟨⟨ki, vi⟩, resti⟩
  · rcases data with _ | ⟨⟨kd, vd⟩, restd⟩
    · rcases labels with _ | ⟨⟨kl, vl⟩, restl⟩
      · simp at h
      · rfl
    · rfl
  · rfl

/-- Witness for C10 with one interval tensor. -/
theorem examples_queue_raises_typeerror_witness :
    examples_queue [("chrom", 1)] [] [] = Except.error QueueError.typeError :=
  examples_queue_raises_typeerror [("chrom", 1)] [] [] (Or.inl (by decide))
